import Mathlib

/-!
Shallow embedding of the Zomato partner-login OTP automation (a serverless
function that drives a headless browser through the login flow).

The embedding follows the JavaScript source:
* `withTimeout` models `_withTimeout` (a `Promise.race` of the wrapped promise
  against a rejecting timer);
* `retryGo` / `waitForSelectorWithRetry` model `_waitForSelectorWithRetry`
  (a retry loop over `waitForSelector` with exponential backoff between
  attempts);
* `sendOTP` models the linear OTP-request procedure (launch browser, open
  page, stealth setup, set user agent, navigate, access-denied check, click
  Login, switch to the accounts.zomato.com iframe, choose the email or phone
  path, submit, cache the session);
* `cleanupCallback` models the deferred five-minute cleanup timer body;
* `handler` models the serverless request handler.

Browser effects are abstracted by an environment (`Env`) that records, for
each fallible automation step, whether the step succeeds or the message of
the error it throws, together with the data the page yields (its title, its
URL, the generated UUID, the live handles).  Machine timestamps are natural
numbers of milliseconds; the JavaScript floating-point division
`timeout / (retries + 1)` is modelled exactly over `ℚ`.
-/

namespace ZomatoOTP

/-- JavaScript `String.prototype.toLowerCase` restricted to the characters the
program compares (ASCII): lower-case every character. -/
def jsToLower (s : String) : String :=
  String.mk (s.data.map Char.toLower)

/-- JavaScript `String.prototype.includes`: `jsIncludes s pat` is true when
`pat` occurs contiguously inside `s`. -/
def jsIncludes (s pat : String) : Bool :=
  decide (pat.data <:+: s.data)

/-- A settled JavaScript promise: the instant (milliseconds from the start of
the race) at which it settles, and its value (`Except.ok`) or rejection
reason (`Except.error`, carrying the error message). -/
structure SettledPromise (α : Type) where
  time : Nat
  outcome : Except String α
deriving Repr

/-- `Promise.race` of two settled promises: whichever settles first wins; when
both settle at the same instant the first element of the raced array wins. -/
def race {α : Type} (p q : SettledPromise α) : SettledPromise α :=
  if p.time ≤ q.time then p else q

/-- The timer promise that `_withTimeout` builds: it rejects at `timeoutMs`
with the templated message. -/
def timeoutPromise (α : Type) (timeoutMs : Nat) (operationName : String) :
    SettledPromise α :=
  ⟨timeoutMs, .error (operationName ++ " timed out after " ++ toString timeoutMs ++ "ms")⟩

/-- `_withTimeout(promise, timeoutMs, operationName)`:
`Promise.race([promise, timeoutPromise])`. -/
def withTimeout {α : Type} (promise : SettledPromise α) (timeoutMs : Nat)
    (operationName : String) : SettledPromise α :=
  race promise (timeoutPromise α timeoutMs operationName)

/-- The options object of `_waitForSelectorWithRetry` with the source's
destructuring defaults: `timeout = 60000`, `retries = 3`,
`retryDelay = 1000`, `visible = false`. -/
structure RetryOptions where
  timeout : ℚ := 60000
  retries : Nat := 3
  retryDelay : ℚ := 1000
  visible : Bool := false
deriving DecidableEq, Repr

/-- What one run of `_waitForSelectorWithRetry` did: its result (the found
element handle or the error finally thrown), how many `waitForSelector`
attempts were made, the `timeout` option passed to each attempt in order, and
the backoff delays slept between attempts in order. -/
structure RetryOutcome where
  result : Except String Nat
  attemptsMade : Nat
  timeoutsUsed : List ℚ
  delays : List ℚ
deriving Repr

/-- The per-attempt `waitForSelector` timeout of `_waitForSelectorWithRetry`:
`attempt === 0 ? timeout : timeout / (retries + 1)`. -/
def attemptTimeout (timeout : ℚ) (retries attempt : Nat) : ℚ :=
  if attempt = 0 then timeout else timeout / ((retries : ℚ) + 1)

/-- The retry loop of `_waitForSelectorWithRetry`.  `attemptFn i` is the
outcome of the `i`-th `waitForSelector` call (the element handle it resolves
with, or the error it rejects with).  `fuel` counts the retries still
allowed, i.e. `retries - attempt`: the `for` loop runs `attempt` from `0`
while `attempt <= retries`, sleeping `retryDelay * 2 ^ attempt` after a
failed attempt that still has retries left, and rethrows the last error when
the budget is exhausted. -/
def retryGo (attemptFn : Nat → Except String Nat) (timeout : ℚ) (retries : Nat)
    (retryDelay : ℚ) : Nat → Nat → RetryOutcome
  | attempt, 0 =>
    match attemptFn attempt with
    | .ok e =>
      { result := .ok e, attemptsMade := attempt + 1,
        timeoutsUsed := [attemptTimeout timeout retries attempt], delays := [] }
    | .error msg =>
      { result := .error msg, attemptsMade := attempt + 1,
        timeoutsUsed := [attemptTimeout timeout retries attempt], delays := [] }
  | attempt, fuel + 1 =>
    match attemptFn attempt with
    | .ok e =>
      { result := .ok e, attemptsMade := attempt + 1,
        timeoutsUsed := [attemptTimeout timeout retries attempt], delays := [] }
    | .error _ =>
      let rest := retryGo attemptFn timeout retries retryDelay (attempt + 1) fuel
      { result := rest.result, attemptsMade := rest.attemptsMade,
        timeoutsUsed := attemptTimeout timeout retries attempt :: rest.timeoutsUsed,
        delays := retryDelay * 2 ^ attempt :: rest.delays }

/-- `_waitForSelectorWithRetry(pageOrFrame, selector, options)`: run the
retry loop from attempt `0` with a budget of `options.retries` retries. -/
def waitForSelectorWithRetry (attemptFn : Nat → Except String Nat)
    (options : RetryOptions) : RetryOutcome :=
  retryGo attemptFn options.timeout options.retries options.retryDelay 0 options.retries

/-- The live handle set one successful `sendOTP` call produces and caches:
the browser, the page, and the accounts.zomato.com login iframe.  Handles are
abstracted as numeric identities supplied by the environment. -/
structure SessionData where
  browser : Nat
  page : Nat
  frame : Nat
deriving DecidableEq, Repr

/-- The in-memory `sessionCache` (a JavaScript `Map` from session identifier
strings to session data), modelled as an association list in insertion
order. -/
abbrev Cache : Type := List (String × SessionData)

/-- `Map.prototype.set`: replace the value of an existing key in place, else
append the new entry at the end. -/
def mapSet (m : Cache) (k : String) (v : SessionData) : Cache :=
  if m.any (fun p => decide (p.1 = k)) then
    m.map (fun p => if p.1 = k then (k, v) else p)
  else
    m ++ [(k, v)]

/-- `Map.prototype.delete`: drop the entry with the given key. -/
def mapDelete (m : Cache) (k : String) : Cache :=
  m.filter (fun p => decide (¬p.1 = k))

/-- `Map.prototype.get`: the value stored under the given key, if any. -/
def mapLookup (m : Cache) (k : String) : Option SessionData :=
  (m.find? (fun p => decide (p.1 = k))).map Prod.snd

/-- The externally observable actions of one `sendOTP` run, in execution
order.  A step is recorded when it completes without throwing; payloads
record the data the step used (the identifier typed, the session id
stored). -/
inductive Step where
  | launch
  | newPage
  | stealth
  | setUserAgent
  | navigate
  | readTitle
  | detectBlock
  | findLoginBtn
  | clickLoginBtn
  | waitIframe
  | getFrame
  | waitLoginHeader
  | waitContinueEmail
  | clickContinueEmail
  | typeEmail (identifier : String)
  | typePhone (identifier : String)
  | submitOtp
  | cacheSession (sessionId : String)
deriving DecidableEq, Repr

/-- The environment one `sendOTP` run executes against: for each fallible
browser-automation step, its success or the message of the error it rejects
with (for the steps wrapped in `_withTimeout` that message may be the
timeout message), plus the data the page yields.  `titleResult` is the
outcome of `page.title()` (the source attaches `.catch(() => 'Unknown')`),
`frameIsNull` says whether `contentFrame()` returned null,
`emailBoundingBox` whether `boundingBox()` of the "Continue with Email"
button was non-null, and `connectedAtError` what `browser.isConnected()`
returns when the catch block runs. -/
structure Env where
  launch : Except String Unit
  browserHandle : Nat
  newPage : Except String Unit
  pageHandle : Nat
  setUserAgent : Except String Unit
  goto : Except String Unit
  pageUrl : String
  titleResult : Except String String
  findLoginButton : Except String Unit
  clickLogin : Except String Unit
  waitIframe : Except String Unit
  frameIsNull : Bool
  frameHandle : Nat
  waitLoginHeader : Except String Unit
  waitContinueEmail : Except String Unit
  emailBoundingBox : Bool
  emailContinueClick : Except String Unit
  emailInput : Except String Unit
  phoneInput : Except String Unit
  submitOtp : Except String Unit
  uuid : String
  connectedAtError : Bool
deriving Repr

/-- The page title `sendOTP` works with:
`await page.title().catch(() => 'Unknown')`. -/
def effTitle (env : Env) : String :=
  match env.titleResult with
  | .ok t => t
  | .error _ => "Unknown"

/-- The error message thrown when the access-denied block page is detected. -/
def accessDeniedMessage : String :=
  "Zomato detected automated browser and blocked access. This may be due to bot detection. Please check browser stealth settings."

/-- The access-denied detection of `sendOTP`:
`pageTitle === 'Access Denied' || pageTitle.toLowerCase().includes('access denied')`. -/
def isAccessDenied (title : String) : Bool :=
  decide (title = "Access Denied") || jsIncludes (jsToLower title) "access denied"

/-- What one `sendOTP` call produced: its result (the `{ sessionId }` return
value or the error thrown), the steps that completed, the session cache
after the call, whether the catch block closed the browser, and the cleanup
timer the call scheduled (delay in milliseconds and the session id it will
clean up). -/
structure SendOTPResult where
  res : Except String String
  trace : List Step
  cache : Cache
  closedInCatch : Bool
  cleanupScheduled : Option (Nat × String)

/-- The catch block of `sendOTP` rethrows the error after closing the
browser when one was launched (`browser` is assigned) and
`browser.isConnected()` holds. -/
def failResult (launched : Bool) (env : Env) (cache : Cache) (trace : List Step)
    (msg : String) : SendOTPResult :=
  { res := .error msg, trace := trace, cache := cache,
    closedInCatch := launched && env.connectedAtError,
    cleanupScheduled := none }

/-- The `sendOTP(identifier, countryCode, type)` procedure.  Each fallible
step consults the environment; the first error aborts the run through the
catch block.  The stealth setup (`_makePageStealth`) and the title read
swallow their own errors and never throw.  On full success the call stores
`{ browser, page, frame }` in the session cache under a generated
identifier and schedules the five-minute cleanup timer. -/
def sendOTP (env : Env) (cache : Cache) (identifier countryCode ty : String) :
    SendOTPResult :=
  match env.launch with
  | .error m => failResult false env cache [] m
  | .ok _ =>
  match env.newPage with
  | .error m => failResult true env cache [.launch] m
  | .ok _ =>
  match env.setUserAgent with
  | .error m => failResult true env cache [.launch, .newPage, .stealth] m
  | .ok _ =>
  match env.goto with
  | .error m => failResult true env cache [.launch, .newPage, .stealth, .setUserAgent] m
  | .ok _ =>
  if isAccessDenied (effTitle env) then
    failResult true env cache
      [.launch, .newPage, .stealth, .setUserAgent, .navigate, .readTitle]
      accessDeniedMessage
  else
  match env.findLoginButton with
  | .error m =>
    failResult true env cache
      [.launch, .newPage, .stealth, .setUserAgent, .navigate, .readTitle, .detectBlock]
      ("Failed to find Login button after navigation. Page URL: " ++ env.pageUrl ++
        ", Page Title: " ++ effTitle env ++ ". Original error: " ++ m)
  | .ok _ =>
  match env.clickLogin with
  | .error m =>
    failResult true env cache
      [.launch, .newPage, .stealth, .setUserAgent, .navigate, .readTitle, .detectBlock,
        .findLoginBtn] m
  | .ok _ =>
  match env.waitIframe with
  | .error m =>
    failResult true env cache
      [.launch, .newPage, .stealth, .setUserAgent, .navigate, .readTitle, .detectBlock,
        .findLoginBtn, .clickLoginBtn] m
  | .ok _ =>
  if env.frameIsNull then
    failResult true env cache
      [.launch, .newPage, .stealth, .setUserAgent, .navigate, .readTitle, .detectBlock,
        .findLoginBtn, .clickLoginBtn, .waitIframe]
      "Could not find the login iframe."
  else
  match env.waitLoginHeader with
  | .error m =>
    failResult true env cache
      [.launch, .newPage, .stealth, .setUserAgent, .navigate, .readTitle, .detectBlock,
        .findLoginBtn, .clickLoginBtn, .waitIframe, .getFrame] m
  | .ok _ =>
  match env.waitContinueEmail with
  | .error m =>
    failResult true env cache
      [.launch, .newPage, .stealth, .setUserAgent, .navigate, .readTitle, .detectBlock,
        .findLoginBtn, .clickLoginBtn, .waitIframe, .getFrame, .waitLoginHeader] m
  | .ok _ =>
  if ty = "email" then
    if !env.emailBoundingBox then
      failResult true env cache
        [.launch, .newPage, .stealth, .setUserAgent, .navigate, .readTitle, .detectBlock,
          .findLoginBtn, .clickLoginBtn, .waitIframe, .getFrame, .waitLoginHeader,
          .waitContinueEmail]
        "Could not get bounding box for \"Continue with Email\" button."
    else
    match env.emailContinueClick with
    | .error m =>
      failResult true env cache
        [.launch, .newPage, .stealth, .setUserAgent, .navigate, .readTitle, .detectBlock,
          .findLoginBtn, .clickLoginBtn, .waitIframe, .getFrame, .waitLoginHeader,
          .waitContinueEmail] m
    | .ok _ =>
    match env.emailInput with
    | .error m =>
      failResult true env cache
        [.launch, .newPage, .stealth, .setUserAgent, .navigate, .readTitle, .detectBlock,
          .findLoginBtn, .clickLoginBtn, .waitIframe, .getFrame, .waitLoginHeader,
          .waitContinueEmail, .clickContinueEmail] m
    | .ok _ =>
    match env.submitOtp with
    | .error m =>
      failResult true env cache
        [.launch, .newPage, .stealth, .setUserAgent, .navigate, .readTitle, .detectBlock,
          .findLoginBtn, .clickLoginBtn, .waitIframe, .getFrame, .waitLoginHeader,
          .waitContinueEmail, .clickContinueEmail, .typeEmail identifier] m
    | .ok _ =>
      { res := .ok env.uuid,
        trace :=
          [.launch, .newPage, .stealth, .setUserAgent, .navigate, .readTitle, .detectBlock,
            .findLoginBtn, .clickLoginBtn, .waitIframe, .getFrame, .waitLoginHeader,
            .waitContinueEmail, .clickContinueEmail, .typeEmail identifier, .submitOtp,
            .cacheSession env.uuid],
        cache := mapSet cache env.uuid
          ⟨env.browserHandle, env.pageHandle, env.frameHandle⟩,
        closedInCatch := false,
        cleanupScheduled := some (5 * 60 * 1000, env.uuid) }
  else
    match env.phoneInput with
    | .error m =>
      failResult true env cache
        [.launch, .newPage, .stealth, .setUserAgent, .navigate, .readTitle, .detectBlock,
          .findLoginBtn, .clickLoginBtn, .waitIframe, .getFrame, .waitLoginHeader,
          .waitContinueEmail] m
    | .ok _ =>
    match env.submitOtp with
    | .error m =>
      failResult true env cache
        [.launch, .newPage, .stealth, .setUserAgent, .navigate, .readTitle, .detectBlock,
          .findLoginBtn, .clickLoginBtn, .waitIframe, .getFrame, .waitLoginHeader,
          .waitContinueEmail, .typePhone identifier] m
    | .ok _ =>
      { res := .ok env.uuid,
        trace :=
          [.launch, .newPage, .stealth, .setUserAgent, .navigate, .readTitle, .detectBlock,
            .findLoginBtn, .clickLoginBtn, .waitIframe, .getFrame, .waitLoginHeader,
            .waitContinueEmail, .typePhone identifier, .submitOtp,
            .cacheSession env.uuid],
        cache := mapSet cache env.uuid
          ⟨env.browserHandle, env.pageHandle, env.frameHandle⟩,
        closedInCatch := false,
        cleanupScheduled := some (5 * 60 * 1000, env.uuid) }

/-- The step sequence of a fully successful `sendOTP` run for a given `type`
argument. -/
def expectedTrace (ty identifier uuid : String) : List Step :=
  [.launch, .newPage, .stealth, .setUserAgent, .navigate, .readTitle, .detectBlock,
    .findLoginBtn, .clickLoginBtn, .waitIframe, .getFrame, .waitLoginHeader,
    .waitContinueEmail] ++
  (if ty = "email" then [.clickContinueEmail, .typeEmail identifier]
   else [.typePhone identifier]) ++
  [.submitOtp, .cacheSession uuid]

/-- The body of the cleanup timer `sendOTP` schedules for five minutes after
caching: when the browser is still connected it closes it and deletes the
cache entry; otherwise it does nothing.  Returns the cache afterwards and
whether the browser was closed. -/
def cleanupCallback (connected : Bool) (cache : Cache) (sessionId : String) :
    Cache × Bool :=
  if connected then (mapDelete cache sessionId, true) else (cache, false)

/-- An HTTP response of the serverless handler: its status code and the
fields of its JSON body that the embedding tracks (`success`, `error`,
`message`; `none` when the body lacks the field or is empty). -/
structure HttpResponse where
  statusCode : Nat
  success : Option Bool
  error : Option String
  message : Option String
deriving DecidableEq, Repr

/-- The serverless handler.  `identifier` is the request body's identifier
field with JavaScript falsiness collapsed to the empty string (a missing
identifier reads as `""`), and `sendOTPOutcome` is what the `sendOTP` call
would settle with.  OPTIONS short-circuits with 200, a non-POST method with
405, a falsy identifier with 400; a successful `sendOTP` yields 200, and a
thrown error yields 403 when its message contains
`'detected automated browser'` and 500 otherwise, with
`error.message || 'Failed to send OTP'` as the body's error field. -/
def handler (httpMethod identifier : String)
    (sendOTPOutcome : Except String String) : HttpResponse :=
  if httpMethod = "OPTIONS" then
    { statusCode := 200, success := none, error := none, message := none }
  else if httpMethod ≠ "POST" then
    { statusCode := 405, success := some false,
      error := some "Method not allowed. Use POST.", message := none }
  else if identifier = "" then
    { statusCode := 400, success := some false,
      error := some "identifier is required", message := none }
  else
    match sendOTPOutcome with
    | .ok _ =>
      { statusCode := 200, success := some true, error := none,
        message := some "OTP sent successfully" }
    | .error m =>
      { statusCode := if jsIncludes m "detected automated browser" then 403 else 500,
        success := some false,
        error := some (if m = "" then "Failed to send OTP" else m),
        message := none }

/-- An operation on the session cache over the program's lifetime: a
successful `sendOTP` call storing its handles under its generated id, or a
cleanup timer firing for an id with the browser's connectedness at that
moment. -/
inductive CacheOp where
  | store (sessionId : String) (data : SessionData)
  | cleanup (sessionId : String) (connected : Bool)
deriving DecidableEq, Repr

/-- Apply one cache operation: a store is `Map.set`, a cleanup deletes the
entry only when the browser is still connected. -/
def applyOp (c : Cache) : CacheOp → Cache
  | .store sid d => mapSet c sid d
  | .cleanup sid connected => if connected then mapDelete c sid else c

/-- The session cache after a sequence of operations, starting empty. -/
def runOps (ops : List CacheOp) : Cache :=
  ops.foldl applyOp []

/-- The session ids of the store operations of a history, in order. -/
def storedKeys : List CacheOp → List String
  | [] => []
  | .store sid _ :: rest => sid :: storedKeys rest
  | .cleanup _ _ :: rest => storedKeys rest

/-- No store of the history ever replaces an existing entry of the cache:
each stored key is absent when its store runs. -/
def NoOverwrite : Cache → List CacheOp → Prop
  | _, [] => True
  | c, .store sid d :: rest =>
      sid ∉ c.map Prod.fst ∧ NoOverwrite (mapSet c sid d) rest
  | c, .cleanup sid connected :: rest =>
      NoOverwrite (applyOp c (.cleanup sid connected)) rest

/-- The message carried by a rejected outcome (and `""` for a resolved one). -/
def errOf {α : Type} : Except String α → String
  | .error m => m
  | .ok _ => ""

/-- Whether an outcome resolved rather than rejected. -/
def exceptOk {α : Type} : Except String α → Bool
  | .ok _ => true
  | .error _ => false

theorem retryGo_attemptsMade_lb (f : Nat → Except String Nat) (t : ℚ) (r : Nat) (d : ℚ) :
    ∀ fuel attempt, attempt + 1 ≤ (retryGo f t r d attempt fuel).attemptsMade
  | 0, attempt => by
    cases h : f attempt <;> simp [retryGo, h]
  | fuel + 1, attempt => by
    cases h : f attempt with
    | ok e => simp [retryGo, h]
    | error m =>
      have ih := retryGo_attemptsMade_lb f t r d fuel (attempt + 1)
      simp [retryGo, h]
      omega

theorem retryGo_attemptsMade_ub (f : Nat → Except String Nat) (t : ℚ) (r : Nat) (d : ℚ) :
    ∀ fuel attempt, (retryGo f t r d attempt fuel).attemptsMade ≤ attempt + fuel + 1
  | 0, attempt => by
    cases h : f attempt <;> simp [retryGo, h]
  | fuel + 1, attempt => by
    cases h : f attempt with
    | ok e => simp [retryGo, h]
    | error m =>
      have ih := retryGo_attemptsMade_ub f t r d fuel (attempt + 1)
      simp [retryGo, h]
      omega

theorem retryGo_delays (f : Nat → Except String Nat) (t : ℚ) (r : Nat) (d : ℚ) :
    ∀ fuel attempt,
      (retryGo f t r d attempt fuel).delays =
        (List.range' attempt ((retryGo f t r d attempt fuel).attemptsMade - 1 - attempt)).map
          (fun j => d * 2 ^ j)
  | 0, attempt => by
    cases h : f attempt <;> simp [retryGo, h]
  | fuel + 1, attempt => by
    cases h : f attempt with
    | ok e => simp [retryGo, h]
    | error m =>
      have ih := retryGo_delays f t r d fuel (attempt + 1)
      have hlb := retryGo_attemptsMade_lb f t r d fuel (attempt + 1)
      simp only [retryGo, h]
      have harith :
          (retryGo f t r d (attempt + 1) fuel).attemptsMade - 1 - attempt =
            ((retryGo f t r d (attempt + 1) fuel).attemptsMade - 1 - (attempt + 1)) + 1 := by
        omega
      rw [harith, List.range'_succ, List.map_cons, ← ih]

theorem retryGo_timeoutsUsed (f : Nat → Except String Nat) (t : ℚ) (r : Nat) (d : ℚ) :
    ∀ fuel attempt,
      (retryGo f t r d attempt fuel).timeoutsUsed =
        (List.range' attempt ((retryGo f t r d attempt fuel).attemptsMade - attempt)).map
          (attemptTimeout t r)
  | 0, attempt => by
    cases h : f attempt <;>
      simp [retryGo, h, Nat.add_sub_cancel_left, List.range'_succ]
  | fuel + 1, attempt => by
    cases h : f attempt with
    | ok e => simp [retryGo, h, Nat.add_sub_cancel_left, List.range'_succ]
    | error m =>
      have ih := retryGo_timeoutsUsed f t r d fuel (attempt + 1)
      have hlb := retryGo_attemptsMade_lb f t r d fuel (attempt + 1)
      simp only [retryGo, h]
      have harith :
          (retryGo f t r d (attempt + 1) fuel).attemptsMade - attempt =
            ((retryGo f t r d (attempt + 1) fuel).attemptsMade - (attempt + 1)) + 1 := by
        omega
      rw [harith, List.range'_succ, List.map_cons, ← ih]

theorem retryGo_first_success (f : Nat → Except String Nat) (t : ℚ) (r : Nat) (d : ℚ) :
    ∀ fuel attempt k e, attempt ≤ k → k ≤ attempt + fuel →
      (∀ j, attempt ≤ j → j < k → exceptOk (f j) = false) → f k = .ok e →
      (retryGo f t r d attempt fuel).result = .ok e ∧
        (retryGo f t r d attempt fuel).attemptsMade = k + 1
  | 0, attempt, k, e, h1, h2, _, hk => by
    have heq : k = attempt := by omega
    subst heq
    simp [retryGo, hk]
  | fuel + 1, attempt, k, e, h1, h2, hfail, hk => by
    rcases Nat.eq_or_lt_of_le h1 with heq | hlt
    · subst heq
      simp [retryGo, hk]
    · have hf : exceptOk (f attempt) = false := hfail attempt le_rfl hlt
      cases hfa : f attempt with
      | ok _ => rw [hfa] at hf; simp [exceptOk] at hf
      | error m =>
        have ih := retryGo_first_success f t r d fuel (attempt + 1) k e hlt (by omega)
          (fun j hj1 hj2 => hfail j (by omega) hj2) hk
        simp only [retryGo, hfa]
        exact ih

theorem retryGo_all_fail (f : Nat → Except String Nat) (t : ℚ) (r : Nat) (d : ℚ) :
    ∀ fuel attempt, (∀ j, attempt ≤ j → j ≤ attempt + fuel → exceptOk (f j) = false) →
      (retryGo f t r d attempt fuel).result = .error (errOf (f (attempt + fuel))) ∧
        (retryGo f t r d attempt fuel).attemptsMade = attempt + fuel + 1
  | 0, attempt, hfail => by
    have h0 := hfail attempt le_rfl (by omega)
    cases hfa : f attempt with
    | ok e => rw [hfa] at h0; simp [exceptOk] at h0
    | error m => simp [retryGo, hfa, errOf]
  | fuel + 1, attempt, hfail => by
    have h0 := hfail attempt le_rfl (by omega)
    cases hfa : f attempt with
    | ok e => rw [hfa] at h0; simp [exceptOk] at h0
    | error m =>
      have ih := retryGo_all_fail f t r d fuel (attempt + 1)
        (fun j hj1 hj2 => hfail j (by omega) (by omega))
      have harith : attempt + 1 + fuel = attempt + (fuel + 1) := by omega
      rw [harith] at ih
      simp only [retryGo, hfa]
      exact ⟨ih.1, by rw [ih.2]⟩

/-- C3: `_waitForSelectorWithRetry` backs off exponentially: after the `i`-th
failed attempt that still has a retry left (`0 ≤ i < retries`) it sleeps
exactly `retryDelay * 2 ^ i` milliseconds before attempt `i + 1` — the
delays slept are, in order, `retryDelay * 2 ^ 0, …, retryDelay * 2 ^ (n-1)`
for the `n` attempts made — and the destructuring defaults are
`retryDelay = 1000` and `retries = 3`. -/
theorem waitForSelectorWithRetry_backoff :
    (∀ (f : Nat → Except String Nat) (opts : RetryOptions),
      (waitForSelectorWithRetry f opts).delays =
        (List.range ((waitForSelectorWithRetry f opts).attemptsMade - 1)).map
          (fun i => opts.retryDelay * 2 ^ i)) ∧
    ({} : RetryOptions).retryDelay = 1000 ∧ ({} : RetryOptions).retries = 3 := by
  refine ⟨fun f opts => ?_, rfl, rfl⟩
  have h := retryGo_delays f opts.timeout opts.retries opts.retryDelay opts.retries 0
  rw [List.range_eq_range']
  simpa [waitForSelectorWithRetry] using h

/-- C6: `_waitForSelectorWithRetry` makes at most `retries + 1` attempts, the
first with the full `timeout` and every later one with
`timeout / (retries + 1)`; it returns the element of the first successful
attempt (making `k + 1` attempts when attempt `k` is the first success), and
when every attempt fails it makes exactly `retries + 1` attempts and throws
the error of the last attempt. -/
theorem waitForSelectorWithRetry_attempts_spec :
    (∀ (f : Nat → Except String Nat) (opts : RetryOptions),
      (waitForSelectorWithRetry f opts).attemptsMade ≤ opts.retries + 1 ∧
      (waitForSelectorWithRetry f opts).timeoutsUsed =
        (List.range (waitForSelectorWithRetry f opts).attemptsMade).map
          (attemptTimeout opts.timeout opts.retries) ∧
      attemptTimeout opts.timeout opts.retries 0 = opts.timeout ∧
      (∀ i, i ≠ 0 →
        attemptTimeout opts.timeout opts.retries i =
          opts.timeout / ((opts.retries : ℚ) + 1))) ∧
    (∀ (f : Nat → Except String Nat) (opts : RetryOptions) (k : Nat) (e : Nat),
      k ≤ opts.retries → (∀ j, j < k → exceptOk (f j) = false) → f k = .ok e →
      (waitForSelectorWithRetry f opts).result = .ok e ∧
        (waitForSelectorWithRetry f opts).attemptsMade = k + 1) ∧
    (∀ (f : Nat → Except String Nat) (opts : RetryOptions),
      (∀ j, j ≤ opts.retries → exceptOk (f j) = false) →
      (waitForSelectorWithRetry f opts).result = .error (errOf (f opts.retries)) ∧
        (waitForSelectorWithRetry f opts).attemptsMade = opts.retries + 1) := by
  refine ⟨fun f opts => ⟨?_, ?_, ?_, ?_⟩, fun f opts k e hk hfail hsucc => ?_, fun f opts hfail => ?_⟩
  · have h := retryGo_attemptsMade_ub f opts.timeout opts.retries opts.retryDelay opts.retries 0
    simpa [waitForSelectorWithRetry] using h
  · have h := retryGo_timeoutsUsed f opts.timeout opts.retries opts.retryDelay opts.retries 0
    rw [List.range_eq_range']
    simpa [waitForSelectorWithRetry] using h
  · simp [attemptTimeout]
  · intro i hi; simp [attemptTimeout, hi]
  · exact retryGo_first_success f opts.timeout opts.retries opts.retryDelay opts.retries 0 k e
      (Nat.zero_le k) (by omega) (fun j _ hj => hfail j hj) hsucc
  · have h := retryGo_all_fail f opts.timeout opts.retries opts.retryDelay opts.retries 0
      (fun j _ hj => hfail j (by omega))
    simpa [waitForSelectorWithRetry] using h

/-- C4: `_withTimeout(promise, timeoutMs, operationName)` settles with the
wrapped promise's own value or rejection whenever that promise settles
within `timeoutMs` milliseconds, and otherwise rejects at `timeoutMs` with
an `Error` whose message is exactly
`operationName ++ " timed out after " ++ timeoutMs ++ "ms"`. -/
theorem withTimeout_spec :
    ∀ (α : Type) (p : SettledPromise α) (timeoutMs : Nat) (operationName : String),
      (p.time ≤ timeoutMs → withTimeout p timeoutMs operationName = p) ∧
      (timeoutMs < p.time →
        withTimeout p timeoutMs operationName =
          ⟨timeoutMs,
            .error (operationName ++ " timed out after " ++ toString timeoutMs ++ "ms")⟩) := by
  intro α p timeoutMs operationName
  constructor
  · intro h
    simp [withTimeout, race, timeoutPromise, h]
  · intro h
    simp [withTimeout, race, timeoutPromise]
    omega

theorem mapLookup_mapDelete_self (c : Cache) (k : String) :
    mapLookup (mapDelete c k) k = none := by
  simp only [mapLookup, mapDelete, Option.map_eq_none', List.find?_eq_none]
  intro p hp
  rw [List.mem_filter] at hp
  simpa using hp.2

theorem sendOTP_ok_inv (env : Env) (cache : Cache) (identifier countryCode ty : String) :
    ∀ sid, (sendOTP env cache identifier countryCode ty).res = .ok sid →
      sid = env.uuid ∧
      (sendOTP env cache identifier countryCode ty).cache =
        mapSet cache env.uuid ⟨env.browserHandle, env.pageHandle, env.frameHandle⟩ ∧
      (sendOTP env cache identifier countryCode ty).cleanupScheduled =
        some (5 * 60 * 1000, env.uuid) ∧
      (sendOTP env cache identifier countryCode ty).trace =
        expectedTrace ty identifier env.uuid ∧
      (sendOTP env cache identifier countryCode ty).closedInCatch = false := by
  unfold sendOTP
  repeat' split
  all_goals intro sid h
  all_goals simp [failResult] at h
  all_goals subst h
  all_goals refine ⟨rfl, rfl, rfl, ?_, rfl⟩
  all_goals simp_all [expectedTrace]

theorem sendOTP_error_inv (env : Env) (cache : Cache) (identifier countryCode ty : String) :
    ∀ m, (sendOTP env cache identifier countryCode ty).res = .error m →
      (sendOTP env cache identifier countryCode ty).cache = cache ∧
      (sendOTP env cache identifier countryCode ty).cleanupScheduled = none ∧
      (sendOTP env cache identifier countryCode ty).closedInCatch =
        (exceptOk env.launch && env.connectedAtError) := by
  unfold sendOTP
  repeat' split
  all_goals intro m h
  all_goals simp [failResult] at h
  all_goals refine ⟨rfl, rfl, ?_⟩
  all_goals simp_all [failResult, exceptOk]

/-- C1 counterexample: the deferred cleanup callback does not unconditionally
remove the cached entry five minutes after creation.  When the browser is no
longer connected at the five-minute mark, the callback closes nothing and
deletes nothing, so the session entry survives: run on a cache holding one
session, the entry is still retrievable afterwards. -/
theorem cleanupCallback_disconnected_keeps_entry :
    cleanupCallback false [("sid-1", ⟨1, 2, 3⟩)] "sid-1" =
        ([("sid-1", ⟨1, 2, 3⟩)], false) ∧
      mapLookup (cleanupCallback false [("sid-1", ⟨1, 2, 3⟩)] "sid-1").1 "sid-1" =
        some ⟨1, 2, 3⟩ := by
  constructor <;> rfl

/-- C1 (amended): every successful `sendOTP` call schedules the cleanup
callback exactly `5 * 60 * 1000` milliseconds after the session is stored;
when the callback runs with the browser still connected it closes the
browser and removes the session's entry (the entry is no longer
retrievable), but when the browser is no longer connected it leaves the
cache unchanged and closes nothing, so a session entry can survive past five
minutes. -/
theorem sendOTP_cleanup_spec :
    (∀ (env : Env) (cache : Cache) (identifier countryCode ty sid : String),
      (sendOTP env cache identifier countryCode ty).res = .ok sid →
      (sendOTP env cache identifier countryCode ty).cleanupScheduled =
        some (5 * 60 * 1000, sid)) ∧
    (∀ (c : Cache) (sid : String),
      (cleanupCallback true c sid).1 = mapDelete c sid ∧
      (cleanupCallback true c sid).2 = true ∧
      mapLookup (cleanupCallback true c sid).1 sid = none) ∧
    (∀ (c : Cache) (sid : String), cleanupCallback false c sid = (c, false)) := by
  refine ⟨fun env cache identifier countryCode ty sid h => ?_,
    fun c sid => ⟨rfl, rfl, mapLookup_mapDelete_self c sid⟩, fun c sid => rfl⟩
  obtain ⟨hsid, -, hsched, -, -⟩ :=
    sendOTP_ok_inv env cache identifier countryCode ty sid h
  rw [hsched, hsid]

theorem sendOTP_trace_le (env : Env) (cache : Cache)
    (identifier countryCode ty : String) :
    (sendOTP env cache identifier countryCode ty).trace <+:
      expectedTrace ty identifier env.uuid := by
  unfold sendOTP
  repeat' split
  all_goals simp_all [failResult, expectedTrace, List.prefix_iff_eq_take]

/-- C2: `sendOTP` performs its steps in exactly the order launch, new page,
stealth, set user agent, navigate, read title, access-denied check, find the
Login button, click it, wait for the accounts.zomato.com iframe, get the
frame, wait for the login header, wait for the "Continue with Email" button,
take the email or phone path according to `type`, submit the OTP request,
and cache the session: the executed steps always form a prefix of that
sequence (so a step runs only after every earlier step succeeded), the full
sequence is executed exactly when the call succeeds, and the session is
cached exactly when the call succeeds. -/
theorem sendOTP_step_order :
    ∀ (env : Env) (cache : Cache) (identifier countryCode ty : String),
      (sendOTP env cache identifier countryCode ty).trace <+:
        expectedTrace ty identifier env.uuid ∧
      (exceptOk (sendOTP env cache identifier countryCode ty).res = true ↔
        (sendOTP env cache identifier countryCode ty).trace =
          expectedTrace ty identifier env.uuid) ∧
      (Step.cacheSession env.uuid ∈ (sendOTP env cache identifier countryCode ty).trace ↔
        exceptOk (sendOTP env cache identifier countryCode ty).res = true) := by
  intro env cache identifier countryCode ty
  refine ⟨sendOTP_trace_le env cache identifier countryCode ty, ?_, ?_⟩
  all_goals unfold sendOTP
  all_goals repeat' split
  all_goals simp_all [failResult, exceptOk, expectedTrace]

/-- C5: `sendOTP` fails with the access-denied failure exactly when the
steps before the check (launch, page creation, user-agent setup, navigation)
succeeded and the loaded page's title equals `'Access Denied'` or contains
`'access denied'` case-insensitively; in that case the thrown error is the
message saying Zomato detected an automated browser and blocked access
(which contains `'detected automated browser'`), and no later step (login
click, iframe switch, OTP submit, session caching) is executed: the trace
ends at the title read. -/
theorem sendOTP_accessDenied_spec :
    (∀ (env : Env) (cache : Cache) (identifier countryCode ty : String),
      ((sendOTP env cache identifier countryCode ty).res = .error accessDeniedMessage ∧
        (sendOTP env cache identifier countryCode ty).trace =
          [.launch, .newPage, .stealth, .setUserAgent, .navigate, .readTitle]) ↔
      (exceptOk env.launch = true ∧ exceptOk env.newPage = true ∧
        exceptOk env.setUserAgent = true ∧ exceptOk env.goto = true ∧
        isAccessDenied (effTitle env) = true)) ∧
    (∀ t, isAccessDenied t = true ↔
      (t = "Access Denied" ∨ jsIncludes (jsToLower t) (jsToLower "access denied") = true)) ∧
    jsIncludes accessDeniedMessage "detected automated browser" = true := by
  refine ⟨fun env cache identifier countryCode ty => ?_, fun t => ?_, by decide⟩
  · unfold sendOTP
    repeat' split
    all_goals simp_all [failResult, exceptOk, expectedTrace]
  · have hpat : jsToLower "access denied" = "access denied" := by decide
    rw [hpat]
    simp [isAccessDenied, Bool.or_eq_true, decide_eq_true_iff]

/-- C8: when `sendOTP` throws, the session cache is left exactly as it was
(no entry is added, no cleanup timer is scheduled), and whenever a browser
was launched and `browser.isConnected()` still holds when the catch block
runs, the catch block closes that browser before rethrowing. -/
theorem sendOTP_error_frame :
    ∀ (env : Env) (cache : Cache) (identifier countryCode ty : String),
      (∀ m, (sendOTP env cache identifier countryCode ty).res = .error m →
        (sendOTP env cache identifier countryCode ty).cache = cache ∧
        (sendOTP env cache identifier countryCode ty).cleanupScheduled = none) ∧
      (∀ m, (sendOTP env cache identifier countryCode ty).res = .error m →
        exceptOk env.launch = true → env.connectedAtError = true →
        (sendOTP env cache identifier countryCode ty).closedInCatch = true) := by
  intro env cache identifier countryCode ty
  constructor
  · intro m h
    obtain ⟨h1, h2, -⟩ := sendOTP_error_inv env cache identifier countryCode ty m h
    exact ⟨h1, h2⟩
  · intro m h hlaunch hconn
    obtain ⟨-, -, h3⟩ := sendOTP_error_inv env cache identifier countryCode ty m h
    rw [h3, hlaunch, hconn]
    rfl

/-- C10: the `type` argument selects the email input path only when it is
exactly the string `"email"`: a run types into the email field only if
`type = "email"`, types into the phone field only if `type ≠ "email"`, and
for every other value of `type` (the default `'phone'` included) a
successful run types the identifier into the phone field and clicks the
'Send One Time Password' button. -/
theorem sendOTP_type_path_spec :
    ∀ (env : Env) (cache : Cache) (identifier countryCode ty : String),
      (∀ s, Step.typeEmail s ∈ (sendOTP env cache identifier countryCode ty).trace →
        ty = "email") ∧
      (∀ s, Step.typePhone s ∈ (sendOTP env cache identifier countryCode ty).trace →
        ¬ty = "email") ∧
      (¬ty = "email" → exceptOk (sendOTP env cache identifier countryCode ty).res = true →
        Step.typePhone identifier ∈ (sendOTP env cache identifier countryCode ty).trace ∧
        Step.submitOtp ∈ (sendOTP env cache identifier countryCode ty).trace) := by
  intro env cache identifier countryCode ty
  refine ⟨?_, ?_, ?_⟩
  all_goals unfold sendOTP
  all_goals repeat' split
  all_goals simp_all [failResult, exceptOk]

theorem mem_mapSet (c : Cache) (s : String) (d : SessionData) (k : String)
    (v : SessionData) (h : (k, v) ∈ mapSet c s d) : (k, v) ∈ c ∨ (k = s ∧ v = d) := by
  unfold mapSet at h
  split at h
  · rw [List.mem_map] at h
    obtain ⟨p, hp, hpe⟩ := h
    by_cases hps : p.1 = s
    · rw [if_pos hps] at hpe
      injection hpe with h1 h2
      exact .inr ⟨h1.symm, h2.symm⟩
    · rw [if_neg hps] at hpe
      left
      rwa [hpe] at hp
  · rw [List.mem_append, List.mem_singleton] at h
    rcases h with h | h
    · exact .inl h
    · injection h with h1 h2
      exact .inr ⟨h1, h2⟩

theorem mem_mapDelete (c : Cache) (s k : String) (v : SessionData)
    (h : (k, v) ∈ mapDelete c s) : (k, v) ∈ c :=
  (List.mem_filter.mp h).1

theorem mem_foldl_applyOp :
    ∀ (ops : List CacheOp) (c : Cache) (k : String) (v : SessionData),
      (k, v) ∈ ops.foldl applyOp c → (k, v) ∈ c ∨ CacheOp.store k v ∈ ops
  | [], c, k, v, h => .inl (by simpa using h)
  | op :: rest, c, k, v, h => by
    rw [List.foldl_cons] at h
    rcases mem_foldl_applyOp rest (applyOp c op) k v h with hc | hr
    · cases op with
      | store sid d =>
        rcases mem_mapSet c sid d k v hc with h1 | ⟨h1, h2⟩
        · exact .inl h1
        · subst h1; subst h2
          exact .inr (by simp)
      | cleanup sid conn =>
        simp only [applyOp] at hc
        split at hc
        · exact .inl (mem_mapDelete c sid k v hc)
        · exact .inl hc
    · exact .inr (List.mem_cons_of_mem _ hr)

theorem keys_mapSet (c : Cache) (s : String) (d : SessionData) (k : String)
    (h : k ∈ (mapSet c s d).map Prod.fst) : k ∈ c.map Prod.fst ∨ k = s := by
  rw [List.mem_map] at h
  obtain ⟨p, hp, hpk⟩ := h
  obtain ⟨p1, p2⟩ := p
  rcases mem_mapSet c s d p1 p2 hp with h1 | ⟨h1, -⟩
  · left
    rw [List.mem_map]
    exact ⟨(p1, p2), h1, hpk⟩
  · right
    rw [← hpk]
    exact h1

theorem keys_mapDelete (c : Cache) (s k : String)
    (h : k ∈ (mapDelete c s).map Prod.fst) : k ∈ c.map Prod.fst := by
  rw [List.mem_map] at h ⊢
  obtain ⟨p, hp, hpk⟩ := h
  exact ⟨p, (List.mem_filter.mp hp).1, hpk⟩

theorem noOverwrite_of_nodup :
    ∀ (ops : List CacheOp) (c : Cache), (storedKeys ops).Nodup →
      (∀ k, k ∈ storedKeys ops → k ∉ c.map Prod.fst) → NoOverwrite c ops
  | [], _, _, _ => trivial
  | .store sid d :: rest, c, hnd, habs => by
    simp only [storedKeys] at hnd habs
    have hcons := List.nodup_cons.mp hnd
    show sid ∉ c.map Prod.fst ∧ NoOverwrite (mapSet c sid d) rest
    refine ⟨habs sid (by simp), ?_⟩
    refine noOverwrite_of_nodup rest (mapSet c sid d) hcons.2 ?_
    intro k hk hkeys
    rcases keys_mapSet c sid d k hkeys with h1 | h1
    · exact habs k (by simp [hk]) h1
    · rw [h1] at hk
      exact hcons.1 hk
  | .cleanup sid conn :: rest, c, hnd, habs => by
    simp only [storedKeys] at hnd habs
    show NoOverwrite (applyOp c (.cleanup sid conn)) rest
    refine noOverwrite_of_nodup rest _ hnd ?_
    intro k hk hkeys
    refine habs k hk ?_
    simp only [applyOp] at hkeys
    split at hkeys
    · exact keys_mapDelete c sid k hkeys
    · exact hkeys

/-- C7: a successful `sendOTP` call stores, under its generated identifier,
exactly the triple of live handles `{browser, page, frame}` that the call
produced; and over any history of cache operations whose stored identifiers
are pairwise distinct (fresh UUIDs), every entry of the cache comes from one
of the store operations — the cache holds nothing else — and no store ever
overwrites an existing entry. -/
theorem sessionCache_entries_spec :
    (∀ (env : Env) (cache : Cache) (identifier countryCode ty sid : String),
      (sendOTP env cache identifier countryCode ty).res = .ok sid →
      sid = env.uuid ∧
      (sendOTP env cache identifier countryCode ty).cache =
        mapSet cache env.uuid ⟨env.browserHandle, env.pageHandle, env.frameHandle⟩) ∧
    (∀ ops : List CacheOp, (storedKeys ops).Nodup →
      (∀ k v, (k, v) ∈ runOps ops → CacheOp.store k v ∈ ops) ∧
      NoOverwrite [] ops) := by
  constructor
  · intro env cache identifier countryCode ty sid h
    obtain ⟨h1, h2, -, -, -⟩ := sendOTP_ok_inv env cache identifier countryCode ty sid h
    exact ⟨h1, h2⟩
  · intro ops hnd
    constructor
    · intro k v h
      rcases mem_foldl_applyOp ops [] k v h with hc | hs
      · simp at hc
      · exact hs
    · exact noOverwrite_of_nodup ops [] hnd (by simp)

/-- C9 counterexample: when `sendOTP` throws an error whose message is the
empty string, the handler's body does not carry the error's message: the
JavaScript fallback `error.message || 'Failed to send OTP'` replaces the
empty message, so the body's error field is `'Failed to send OTP'`, not
`''`. -/
theorem handler_empty_error_message_cex :
    (handler "POST" "9014884219" (Except.error "")).statusCode = 500 ∧
    (handler "POST" "9014884219" (Except.error "")).success = some false ∧
    (handler "POST" "9014884219" (Except.error "")).error = some "Failed to send OTP" ∧
    ¬(handler "POST" "9014884219" (Except.error "")).error = some "" := by
  refine ⟨rfl, rfl, rfl, by decide⟩

/-- C9 (amended): when `sendOTP` throws, the handler responds 403 if and
only if the thrown error's message contains the substring
`'detected automated browser'`, and 500 for every other error; the body has
`success: false` and carries the error's message except when that message is
the empty (falsy) string, in which case the error field is
`'Failed to send OTP'`. -/
theorem handler_error_status_spec (identifier m : String) (hid : ¬identifier = "") :
    (handler "POST" identifier (.error m)).success = some false ∧
    (handler "POST" identifier (.error m)).error =
      some (if m = "" then "Failed to send OTP" else m) ∧
    ((handler "POST" identifier (.error m)).statusCode = 403 ↔
      jsIncludes m "detected automated browser" = true) ∧
    ((handler "POST" identifier (.error m)).statusCode = 403 ∨
      (handler "POST" identifier (.error m)).statusCode = 500) := by
  have h1 : ¬(("POST" : String) = "OPTIONS") := by decide
  have h2 : ¬(("POST" : String) ≠ "POST") := by simp
  simp only [handler, if_neg h1, if_neg h2, if_neg hid]
  by_cases hj : jsIncludes m "detected automated browser" <;> simp [hj]

theorem handler_error_status_spec_witness :
    (handler "POST" "9014884219" (.error accessDeniedMessage)).success = some false ∧
    (handler "POST" "9014884219" (.error accessDeniedMessage)).error =
      some (if accessDeniedMessage = "" then "Failed to send OTP" else accessDeniedMessage) ∧
    ((handler "POST" "9014884219" (.error accessDeniedMessage)).statusCode = 403 ↔
      jsIncludes accessDeniedMessage "detected automated browser" = true) ∧
    ((handler "POST" "9014884219" (.error accessDeniedMessage)).statusCode = 403 ∨
      (handler "POST" "9014884219" (.error accessDeniedMessage)).statusCode = 500) :=
  handler_error_status_spec "9014884219" accessDeniedMessage (by decide)

end ZomatoOTP
